import Mathlib

/-!
Verification of the sqlx Postgres driver core (protocol, connection,
executor, cursor, row) against its specification.

Bytes are modelled as `Nat` (values < 256 where it matters), buffers as
`List Nat`.  Machine integers are modelled as `Nat`/`Int` with explicit
reduction modulo 2^w at the points where the source performs a cast or
where wrap-around can occur.  Fallible operations return `Option` or
`Except`.
-/

set_option autoImplicit false

namespace Sqlx

/-! ## Byte-buffer primitives

Modelled from the spec: the `io::Buf` reader interface (get_u16 / get_i32
in network byte order, advance) used by the protocol decoders; the module
`sqlx-core/src/io/buf.rs` itself is outside the provided sources.  A read
past the end of the buffer is a failure (`none`). -/

/-- Modelled from the spec: big-endian (network order) 2-byte unsigned read;
returns the value and the remaining buffer. -/
def getU16 : List Nat → Option (Nat × List Nat)
  | a :: b :: rest => some (a * 2 ^ 8 + b, rest)
  | _ => none

/-- Modelled from the spec: big-endian (network order) 4-byte read,
interpreted as a signed 32-bit integer in two's complement. -/
def getI32 : List Nat → Option (Int × List Nat)
  | a :: b :: c :: d :: rest =>
      let u : Nat := a * 2 ^ 24 + b * 2 ^ 16 + c * 2 ^ 8 + d
      some (if u < 2 ^ 31 then (u : Int) else (u : Int) - 2 ^ 32, rest)
  | _ => none

/-- Modelled from the spec: advance the read buffer by `n` bytes; advancing
past the end is a bounds failure. -/
def advanceBuf (buf : List Nat) (n : Nat) : Option (List Nat) :=
  if n ≤ buf.length then some (buf.drop n) else none

/-- Big-endian encoding of a 2-byte unsigned integer (values taken mod 2^16). -/
def u16be (n : Nat) : List Nat :=
  [n / 2 ^ 8 % 2 ^ 8, n % 2 ^ 8]

/-- Big-endian two's-complement encoding of a signed 32-bit integer. -/
def i32be (i : Int) : List Nat :=
  let u : Nat := (i % 2 ^ 32).toNat
  [u / 2 ^ 24 % 2 ^ 8, u / 2 ^ 16 % 2 ^ 8, u / 2 ^ 8 % 2 ^ 8, u % 2 ^ 8]

/-- Modelled from the spec: big-endian 4-byte unsigned write (`BufMut::put_u32`),
appending to the write buffer. -/
def putU32 (buf : List Nat) (n : Nat) : List Nat :=
  let u := n % 2 ^ 32
  buf ++ [u / 2 ^ 24 % 2 ^ 8, u / 2 ^ 16 % 2 ^ 8, u / 2 ^ 8 % 2 ^ 8, u % 2 ^ 8]

/-- Rust cast `as u32` applied to an `i32` value: two's-complement reduction. -/
def i32AsU32 (i : Int) : Nat := (i % 2 ^ 32).toNat

/-- Rust cast `as usize` (64-bit) applied to an `i32` value: sign extension
then two's-complement reduction. -/
def i32AsUsize (i : Int) : Nat := (i % 2 ^ 64).toNat

/-- Rust cast `as i16` applied to a `usize` value: truncation to 16 bits,
reinterpreted as signed two's complement. -/
def usizeAsI16 (n : Nat) : Int :=
  let u : Nat := n % 2 ^ 16
  if u < 2 ^ 15 then (u : Int) else (u : Int) - 2 ^ 16

/-! ## DataRow decoding (`sqlx-core/src/postgres/protocol/data_row.rs`)

`DataRow::read` parses one row's frame payload: a 2-byte big-endian column
count, then per column a 4-byte big-endian signed length (`-1` marks NULL)
followed by that many value bytes.  Ranges are recorded relative to the
frame payload (`index` starts at 6 = 2-byte count + 4-byte first length)
into the caller-supplied reusable `values` vector.  `DataRow::get` slices
the buffer with a recorded range. -/

/-- The `DataRow` struct: it retains only the column count (`len: u16`). -/
structure DataRow where
  len : Nat
  deriving Repr, DecidableEq

/-- Number of columns in the row (`DataRow::len`). -/
def DataRow.length (d : DataRow) : Nat := d.len

/-- The column-range index built by `DataRow::read`: per column either a
byte range `(start, stop)` into the payload buffer or `none` for SQL NULL. -/
abbrev RowValues := List (Option (Nat × Nat))

/-- The column loop of `DataRow::read`.  The source loops
`while values.len() < len`, pushing exactly one entry per iteration onto the
cleared vector, so the iteration count is exactly `len`; we recurse on that
count.  `index` tracks the payload-relative position of the current column's
value bytes; `buf` has already consumed the count and all previous columns. -/
def dataRowLoop : Nat → List Nat → Nat → RowValues → Option (RowValues × List Nat)
  | 0, buf, _, values => some (values, buf)
  | n + 1, buf, index, values => do
      let (size, buf) ← getI32 buf
      if size = -1 then
        dataRowLoop n buf (index + 4) (values ++ [none])
      else do
        let buf ← advanceBuf buf (i32AsUsize size)
        dataRowLoop n buf (index + i32AsU32 size + 4)
          (values ++ [some (index, index + i32AsU32 size)])

/-- The function `DataRow::read`: clears `values`, reads the column count and
runs the column loop starting at payload offset 6.  Returns the parsed
struct, the repopulated `values` vector, and the unconsumed remainder of the
buffer (the source mutates `buf` in place; we return it explicitly so that
exact consumption can be stated). -/
def dataRowRead (buf : List Nat) : Option (DataRow × RowValues × List Nat) := do
  let (len, buf) ← getU16 buf
  let (values, buf) ← dataRowLoop len buf 6 []
  some (⟨len⟩, values, buf)

/-- The function `DataRow::get`: index into the recorded ranges and slice the
buffer.  The source indexes with `values[index]` and slices with
`&buf[start..end]`, both of which panic when out of bounds; those cases are
`none` here, while a NULL column is `some none`. -/
def dataRowGet (buf : List Nat) (values : RowValues) (index : Nat) :
    Option (Option (List Nat)) :=
  match values.get? index with
  | none => none
  | some none => some none
  | some (some r) =>
      if r.1 ≤ r.2 ∧ r.2 ≤ buf.length then
        some (some ((buf.drop r.1).take (r.2 - r.1)))
      else
        none

/-- A row described abstractly: per column, `none` for NULL or the value
bytes.  Used to state properties of the decoder. -/
abbrev ColumnData := List (Option (List Nat))

/-- Wire encoding of one column: length `-1` for NULL, else the 4-byte
length followed by the value bytes. -/
def encodeColumn : Option (List Nat) → List Nat
  | none => i32be (-1)
  | some bs => i32be (bs.length : Int) ++ bs

/-- Wire encoding of the column sequence of a DataRow payload. -/
def encodeColumns : ColumnData → List Nat
  | [] => []
  | c :: cs => encodeColumn c ++ encodeColumns cs

/-- Full DataRow frame payload: 2-byte big-endian column count followed by
the encoded columns. -/
def encodePayload (cols : ColumnData) : List Nat :=
  u16be cols.length ++ encodeColumns cols

/-- The range index that `DataRow::read` is expected to produce when the
value bytes of the first remaining column start at payload offset `index`. -/
def expectedValues : Nat → ColumnData → RowValues
  | _, [] => []
  | index, none :: cs => none :: expectedValues (index + 4) cs
  | index, some bs :: cs =>
      some (index, index + bs.length) :: expectedValues (index + bs.length + 4) cs

/-! ## Errors

Modelled from the spec: the crate error type and the `protocol_err!`
constructor macro live in `sqlx-core/src/error.rs`, outside the provided
sources.  The spec's §7 taxonomy distinguishes (a) I/O failure,
(b) protocol violation and (c) server-reported error carrying severity,
code and message; `protocol_err!(fmt, args)` produces a protocol-kind
error carrying the formatted message. -/

inductive Error where
  | io (msg : String)
  | protocol (msg : String)
  | database (severity : String) (code : String) (message : String)
  deriving Repr, DecidableEq

/-- The taxonomy kind of an error, forgetting its payload. -/
inductive ErrorKind where
  | io
  | protocol
  | database
  deriving Repr, DecidableEq

/-- Map an error to its taxonomy kind. -/
def Error.kind : Error → ErrorKind
  | .io _ => .io
  | .protocol _ => .protocol
  | .database _ _ _ => .database

/-! ## Message catalog (`sqlx-core/src/postgres/protocol/message.rs`) -/

/-- The logical backend message kinds (`enum Message`). -/
inductive Message where
  | Authentication
  | BackendKeyData
  | BindComplete
  | CloseComplete
  | CommandComplete
  | DataRow
  | NoData
  | NotificationResponse
  | ParameterDescription
  | ParameterStatus
  | ParseComplete
  | PortalSuspended
  | ReadyForQuery
  | Response
  | RowDescription
  deriving Repr, DecidableEq

/-- Rust `{:?}` (derived Debug) rendering of a `Message` value. -/
def Message.debugName : Message → String
  | .Authentication => "Authentication"
  | .BackendKeyData => "BackendKeyData"
  | .BindComplete => "BindComplete"
  | .CloseComplete => "CloseComplete"
  | .CommandComplete => "CommandComplete"
  | .DataRow => "DataRow"
  | .NoData => "NoData"
  | .NotificationResponse => "NotificationResponse"
  | .ParameterDescription => "ParameterDescription"
  | .ParameterStatus => "ParameterStatus"
  | .ParseComplete => "ParseComplete"
  | .PortalSuspended => "PortalSuspended"
  | .ReadyForQuery => "ReadyForQuery"
  | .Response => "Response"
  | .RowDescription => "RowDescription"

/-- The function `Message::try_from(u8)`: map a one-byte wire tag to its
logical message kind; an unlisted byte is a protocol error.  Byte values
are the ASCII codes of the tags in the source
(N=78, E=69, D=68, S=83, Z=90, R=82, K=75, C=67, A=65,
1=49, 2=50, 3=51, n=110, s=115, t=116, T=84). -/
def Message.tryFrom (type_ : Nat) : Except Error Message :=
  match type_ with
  | 78 => .ok .Response
  | 69 => .ok .Response
  | 68 => .ok .DataRow
  | 83 => .ok .ParameterStatus
  | 90 => .ok .ReadyForQuery
  | 82 => .ok .Authentication
  | 75 => .ok .BackendKeyData
  | 67 => .ok .CommandComplete
  | 65 => .ok .NotificationResponse
  | 49 => .ok .ParseComplete
  | 50 => .ok .BindComplete
  | 51 => .ok .CloseComplete
  | 110 => .ok .NoData
  | 115 => .ok .PortalSuspended
  | 116 => .ok .ParameterDescription
  | 84 => .ok .RowDescription
  | id => .error (.protocol ("unknown message: " ++ toString id))

/-! ## Authentication variants

Modelled from the spec: the decoder `Authentication::read` lives in
`sqlx-core/src/postgres/protocol/authentication.rs`, outside the provided
sources.  The spec (§4.2, §7d) only distinguishes the `Ok` variant from
"any challenge/SASL/password request". -/

inductive Authentication where
  | ok
  | kerberosV5
  | cleartextPassword
  | md5Password
  | sasl
  deriving Repr, DecidableEq

/-- Rust `{:?}` (derived Debug) rendering of an `Authentication` value. -/
def Authentication.debugName : Authentication → String
  | .ok => "Ok"
  | .kerberosV5 => "KerberosV5"
  | .cleartextPassword => "CleartextPassword"
  | .md5Password => "Md5Password"
  | .sasl => "Sasl"

/-! ## Scripted response frames

A frame as delivered by `PgStream::read`: the logical message kind
together with the payload data the driver core actually inspects
(the decoded `Authentication` variant, a DataRow frame payload, the
fields of an ErrorResponse).  Other payloads are discarded by the code
under verification. -/

inductive Frame where
  | authentication (auth : Authentication)
  | backendKeyData
  | parameterStatus
  | readyForQuery
  | rowDescription
  | dataRow (payload : List Nat)
  | commandComplete
  | notificationResponse
  | parseComplete
  | bindComplete
  | closeComplete
  | noData
  | portalSuspended
  | parameterDescription
  | response (severity : String) (code : String) (message : String)
  deriving Repr, DecidableEq

/-- The logical message kind of a scripted frame. -/
def Frame.kind : Frame → Message
  | .authentication _ => .Authentication
  | .backendKeyData => .BackendKeyData
  | .parameterStatus => .ParameterStatus
  | .readyForQuery => .ReadyForQuery
  | .rowDescription => .RowDescription
  | .dataRow _ => .DataRow
  | .commandComplete => .CommandComplete
  | .notificationResponse => .NotificationResponse
  | .parseComplete => .ParseComplete
  | .bindComplete => .BindComplete
  | .closeComplete => .CloseComplete
  | .noData => .NoData
  | .portalSuspended => .PortalSuspended
  | .parameterDescription => .ParameterDescription
  | .response _ _ _ => .Response

/-! ## Frontend messages -/

/-- Result/parameter format codes (`enum TypeFormat`). -/
inductive TypeFormat where
  | text
  | binary
  deriving Repr, DecidableEq

/-- Outbound protocol messages, at the granularity the executor and
connection write them (their byte encoders live outside the provided
sources; the claims under verification are about which messages are
written, with which fields, and in which order). -/
inductive FrontendMessage where
  | startupMessage (params : List (String × String))
  | parse (statement : Nat) (query : String) (paramTypes : List Nat)
  | bind (portal : String) (statement : Nat) (formats : List TypeFormat)
      (valuesLen : Int) (values : List Nat) (resultFormats : List TypeFormat)
  | describe (target : String)
  | execute (portal : String) (limit : Int)
  | sync
  | terminate
  deriving Repr, DecidableEq

/-- Prepared-statement arguments (`PgArguments`): declared parameter type
OIDs and the encoded value bytes.  The building of these from native
values is outside the core under verification. -/
structure PgArguments where
  types : List Nat
  values : List Nat
  deriving Repr, DecidableEq

/-! ## Framed stream

Modelled from the spec: `PgStream` (`sqlx-core/src/postgres/stream.rs`)
is outside the provided sources; §4.1 gives its contract.  `write`
buffers a message without I/O; `flush` sends the whole write buffer;
`read` yields the next scripted frame (an exhausted script is an I/O
failure).  `flushes` counts flush calls so that "sent with a single
flush" is statable. -/

structure PgStream where
  wbuf : List FrontendMessage
  sent : List FrontendMessage
  flushes : Nat
  rstream : List Frame
  deriving Repr, DecidableEq

/-- Modelled from the spec: buffer one outbound message (no I/O). -/
def PgStream.write (s : PgStream) (m : FrontendMessage) : PgStream :=
  { s with wbuf := s.wbuf ++ [m] }

/-- Modelled from the spec: perform the network write of the whole write
buffer. -/
def PgStream.flush (s : PgStream) : PgStream :=
  { s with wbuf := [], sent := s.sent ++ s.wbuf, flushes := s.flushes + 1 }

/-- Modelled from the spec: read the next frame; reading past the end of
the scripted stream is an I/O failure. -/
def PgStream.read (s : PgStream) : Except Error (Frame × PgStream) :=
  match s.rstream with
  | [] => .error (.io "unexpected end of stream")
  | f :: rest => .ok (f, { s with rstream := rest })

/-! ## Connection (`sqlx-core/src/postgres/connection.rs`) -/

/-- The connection state: framed stream, monotonically increasing
statement-id counter (a `u32` in the source), the ready flag, and the
reusable column-range scratch buffer. -/
structure PgConnection where
  stream : PgStream
  next_statement_id : Nat
  is_ready : Bool
  data_row_values_buf : RowValues
  deriving Repr, DecidableEq

/-- The fixed runtime parameters sent by `startup` for a given user and
database. -/
def startupParams (username database : String) : List (String × String) :=
  [("user", username),
   ("database", database),
   ("DateStyle", "ISO, MDY"),
   ("IntervalStyle", "iso_8601"),
   ("TimeZone", "UTC"),
   ("extra_float_digits", "3"),
   ("client_encoding", "UTF-8")]

/-- The response-processing loop of `startup`: read frames until
`ReadyForQuery`; `Authentication` must decode to `Ok` (anything else is an
unsupported-authentication error), `BackendKeyData` and `ParameterStatus`
are discarded, any other kind is an unexpected-message protocol error.
Returns the unread remainder of the scripted stream. -/
def startupDrain : List Frame → Except Error (List Frame)
  | [] => .error (.io "unexpected end of stream")
  | .authentication auth :: rest =>
      if auth = .ok then
        startupDrain rest
      else
        .error (.protocol ("requested unsupported authentication: " ++ auth.debugName))
  | .backendKeyData :: rest => startupDrain rest
  | .parameterStatus :: rest => startupDrain rest
  | .readyForQuery :: rest => .ok rest
  | f :: _ => .error (.protocol ("unexpected message: " ++ f.kind.debugName))

/-- The function `startup`: write the `StartupMessage` with the fixed
runtime parameters, flush, then run the response loop. -/
def startup (stream : PgStream) (username database : String) :
    Except Error PgStream :=
  let stream := (stream.write (.startupMessage (startupParams username database))).flush
  match startupDrain stream.rstream with
  | .ok rest => .ok { stream with rstream := rest }
  | .error e => .error e

/-- The function `PgConnection::new`: run the startup handshake over a
fresh stream, then build the connection with an empty scratch buffer,
statement-id counter 1 and the ready flag set. -/
def PgConnection.new (responses : List Frame) (username database : String) :
    Except Error PgConnection :=
  match startup { wbuf := [], sent := [], flushes := 0, rstream := responses }
      username database with
  | .ok stream =>
      .ok { stream := stream
            data_row_values_buf := []
            next_statement_id := 1
            is_ready := true }
  | .error e => .error e

/-! ## Executor (`sqlx-core/src/postgres/executor.rs`) -/

/-- The function `PgConnection::write_prepare`: allocate the next statement
id (the source increments a `u32` counter, hence the reduction mod 2^32),
buffer a `Parse` message with the query text and the declared argument
type OIDs, and return the id. -/
def PgConnection.write_prepare (conn : PgConnection) (query : String)
    (args : PgArguments) : PgConnection × Nat :=
  let id := conn.next_statement_id
  let conn := { conn with next_statement_id := (conn.next_statement_id + 1) % 2 ^ 32 }
  ({ conn with stream := conn.stream.write (.parse id query args.types) }, id)

/-- The function `PgConnection::write_bind`: buffer a `Bind` message with
binary-format values on the given portal, value count taken from
`args.types.len() as i16`, and binary result formats. -/
def PgConnection.write_bind (conn : PgConnection) (portal : String)
    (statement : Nat) (args : PgArguments) : PgConnection :=
  { conn with
      stream := conn.stream.write
        (.bind portal statement [TypeFormat.binary]
          (usizeAsI16 args.types.length) args.values [TypeFormat.binary]) }

/-- The function `PgConnection::write_execute`: buffer an `Execute` message
for the given portal and row limit. -/
def PgConnection.write_execute (conn : PgConnection) (portal : String)
    (limit : Int) : PgConnection :=
  { conn with stream := conn.stream.write (.execute portal limit) }

/-- The function `PgConnection::write_sync`: buffer a `Sync` message. -/
def PgConnection.write_sync (conn : PgConnection) : PgConnection :=
  { conn with stream := conn.stream.write .sync }

/-- A cursor bound to the connection and the allocated statement id
(`PgCursor`); the connection itself is threaded explicitly. -/
structure PgCursor where
  statement : Nat
  deriving Repr, DecidableEq

/-- The function `Executor::execute`: unwrap the arguments (`None`
arguments are a panic in the source, modelled as `none`), then buffer
`Parse`, `Bind` on the unnamed portal, `Execute` on the unnamed portal
with no row limit, and `Sync` — the `Describe` step is commented out in
the source — and return a cursor without flushing or reading. -/
def PgConnection.execute (conn : PgConnection) (query : String)
    (arguments : Option PgArguments) : Option (PgConnection × PgCursor) :=
  match arguments with
  | none => none
  | some args =>
      let (conn, statement) := conn.write_prepare query args
      let conn := conn.write_bind "" statement args
      let conn := conn.write_execute "" 0
      let conn := conn.write_sync
      some (conn, { statement })

/-! ## Cursor and row (`sqlx-core/src/postgres/cursor.rs`, `row.rs`) -/

/-- A row: the decoded `DataRow` struct together with the data it borrows
from the connection — the current frame payload and the column-range
scratch buffer — plus the (default-empty) column-name map. -/
structure PgRow where
  data : DataRow
  buffer : List Nat
  values : RowValues
  columns : List (String × Nat)
  deriving Repr, DecidableEq

/-- The function `PgRow::len` (trait `Row`): the source returns the literal
`0`; the delegation to `DataRow::len` is commented out. -/
def PgRow.len (_ : PgRow) : Nat := 0

/-- The default method `Row::is_empty` from `sqlx-core/src/row.rs`:
true iff `len` returns 0. -/
def PgRow.isEmpty (row : PgRow) : Bool := row.len == 0

/-- The function `PgRow::try_get`: delegate to `DataRow::get` with the
connection's current buffer and column-range scratch vector. -/
def PgRow.try_get (row : PgRow) (index : Nat) : Option (Option (List Nat)) :=
  dataRowGet row.buffer row.values index

/-- The read loop of `wait_for_ready`: discard every frame until a
`ReadyForQuery` arrives; return the unread remainder. -/
def drainToReady : List Frame → Except Error (List Frame)
  | [] => .error (.io "unexpected end of stream")
  | .readyForQuery :: rest => .ok rest
  | _ :: rest => drainToReady rest

/-- The function `wait_for_ready`: when the connection is not ready, read
and discard frames until `ReadyForQuery`, then set the ready flag.  The
connection state is returned alongside the result (the source mutates the
borrowed connection even when it returns an error). -/
def wait_for_ready (conn : PgConnection) : Except Error Unit × PgConnection :=
  if conn.is_ready then
    (.ok (), conn)
  else
    match drainToReady conn.stream.rstream with
    | .ok rest =>
        (.ok (), { conn with
                     stream := { conn.stream with rstream := rest }
                     is_ready := true })
    | .error e =>
        (.error e, { conn with stream := { conn.stream with rstream := [] } })

/-- The read loop of `first`: skip `ParseComplete`/`BindComplete`
acknowledgements; on `DataRow`, decode the payload into the scratch buffer
and return a row borrowing it; any other kind is an unexpected-message
protocol error.  Returns the result, the unread remainder of the stream
and the scratch buffer. -/
def firstLoop : List Frame → RowValues →
    Except Error (Option PgRow) × List Frame × RowValues
  | [], values => (.error (.io "unexpected end of stream"), [], values)
  | .parseComplete :: rest, values => firstLoop rest values
  | .bindComplete :: rest, values => firstLoop rest values
  | .dataRow payload :: rest, values =>
      match dataRowRead payload with
      | some (data, values, _) =>
          (.ok (some { data, buffer := payload, values, columns := [] }),
           rest, values)
      | none => (.error (.io "unexpected end of buffer"), rest, values)
  | f :: rest, values =>
      (.error (.protocol ("unexpected message: " ++ f.kind.debugName)),
       rest, values)

/-- The function `first` (driving `PgCursor::first`): wait for the
connection to be ready, flush the buffered query messages, clear the ready
flag, then run the read loop for the first row. -/
def first (conn : PgConnection) : Except Error (Option PgRow) × PgConnection :=
  match wait_for_ready conn with
  | (.error e, conn) => (.error e, conn)
  | (.ok _, conn) =>
      let conn := { conn with stream := conn.stream.flush }
      let conn := { conn with is_ready := false }
      let (res, rest, values) := firstLoop conn.stream.rstream conn.data_row_values_buf
      (res, { conn with
                stream := { conn.stream with rstream := rest }
                data_row_values_buf := values })

/-! ## SSLRequest (`sqlx-core/src/postgres/protocol/ssl_request.rs`) -/

/-- The function `SslRequest::encode`: the fixed 8-byte frame — big-endian
length 8 (including itself) followed by the big-endian magic code
`(1234 << 16) | 5679`. -/
def sslRequestEncode (buf : List Nat) : List Nat :=
  putU32 (putU32 buf 8) ((1234 <<< 16) ||| 5679)

/-! ## Iterated statement-id allocation (for the reuse invariant) -/

/-- An empty argument set. -/
def emptyArgs : PgArguments := { types := [], values := [] }

/-- A connection as produced by `PgConnection::new` after a successful
handshake, with a given scripted remainder. -/
def freshConnection (responses : List Frame) : PgConnection :=
  { stream := { wbuf := [], sent := [], flushes := 0, rstream := responses }
    next_statement_id := 1
    is_ready := true
    data_row_values_buf := [] }

/-- The connection after `n` `execute` calls on a fresh connection.
`execute` with `some` arguments never returns `none`; the fallback branch
is unreachable. -/
def connAfter : Nat → PgConnection
  | 0 => freshConnection []
  | n + 1 =>
      match (connAfter n).execute "q" (some emptyArgs) with
      | some (conn, _) => conn
      | none => connAfter n

/-- The statement id allocated by the `(n+1)`-th `execute` call on a fresh
connection: the counter value before that call's increment. -/
def allocatedId (n : Nat) : Nat := (connAfter n).next_statement_id

/-- Modelled from the spec: big-endian (network order) 4-byte unsigned
read, the inverse direction of `putU32`. -/
def getU32 : List Nat → Option (Nat × List Nat)
  | a :: b :: c :: d :: rest =>
      some (a * 2 ^ 24 + b * 2 ^ 16 + c * 2 ^ 8 + d, rest)
  | _ => none

/-- The DataRow frame payload from the spec's worked example:
three columns of one byte each, values "1", "2", "3". -/
def examplePayload : List Nat :=
  [0, 3, 0, 0, 0, 1, 0x31, 0, 0, 0, 1, 0x32, 0, 0, 0, 1, 0x33]

/-- The abstract column data of the worked example. -/
def exampleCols : ColumnData := [some [0x31], some [0x32], some [0x33]]

/-- Whether a frontend message is a `Describe`. -/
def FrontendMessage.isDescribe : FrontendMessage → Bool
  | .describe _ => true
  | _ => false

/-- The contiguous block of messages one `execute` call buffers for a
query cycle, given the allocated statement id. -/
def queryBlock (id : Nat) (query : String) (args : PgArguments) :
    List FrontendMessage :=
  [.parse id query args.types,
   .bind "" id [TypeFormat.binary] (usizeAsI16 args.types.length) args.values
     [TypeFormat.binary],
   .execute "" 0,
   .sync]

/-- Decidable equality for `Except` results, needed to evaluate the model
on concrete inputs. -/
instance {ε α : Type} [DecidableEq ε] [DecidableEq α] : DecidableEq (Except ε α)
  | .ok a, .ok b =>
      if h : a = b then isTrue (by rw [h]) else isFalse (by simp [h])
  | .error a, .error b =>
      if h : a = b then isTrue (by rw [h]) else isFalse (by simp [h])
  | .ok _, .error _ => isFalse (by simp)
  | .error _, .ok _ => isFalse (by simp)

/-! ## Theorems -/

set_option maxRecDepth 8192 in
/-- Claim C7: the tag-to-message mapping is total on the spec's §6 table —
each of the one-byte tags R, K, S, Z, T, D, C, A, 1, 2, 3, n, s, t, N, E
maps to exactly one logical message kind (N and E both to `Response`),
and every byte not in the table yields a protocol error rather than any
default message kind. -/
theorem c7_message_tag_total :
    (Message.tryFrom 82 = .ok .Authentication ∧
     Message.tryFrom 75 = .ok .BackendKeyData ∧
     Message.tryFrom 83 = .ok .ParameterStatus ∧
     Message.tryFrom 90 = .ok .ReadyForQuery ∧
     Message.tryFrom 84 = .ok .RowDescription ∧
     Message.tryFrom 68 = .ok .DataRow ∧
     Message.tryFrom 67 = .ok .CommandComplete ∧
     Message.tryFrom 65 = .ok .NotificationResponse ∧
     Message.tryFrom 49 = .ok .ParseComplete ∧
     Message.tryFrom 50 = .ok .BindComplete ∧
     Message.tryFrom 51 = .ok .CloseComplete ∧
     Message.tryFrom 110 = .ok .NoData ∧
     Message.tryFrom 115 = .ok .PortalSuspended ∧
     Message.tryFrom 116 = .ok .ParameterDescription ∧
     Message.tryFrom 78 = .ok .Response ∧
     Message.tryFrom 69 = .ok .Response) ∧
    (∀ b : Nat, b < 256 →
      b ∉ [78, 69, 68, 83, 90, 82, 75, 67, 65, 49, 50, 51, 110, 115, 116, 84] →
      Message.tryFrom b = .error (.protocol ("unknown message: " ++ toString b))) := by
  constructor
  · exact ⟨rfl, rfl, rfl, rfl, rfl, rfl, rfl, rfl, rfl, rfl, rfl, rfl, rfl, rfl,
      rfl, rfl⟩
  · decide

/-- Witness for C7 at the concrete unlisted byte 33: the conversion yields
a protocol error. -/
theorem c7_message_tag_total_witness :
    (33 : Nat) < 256 ∧
    (33 : Nat) ∉ [78, 69, 68, 83, 90, 82, 75, 67, 65, 49, 50, 51, 110, 115, 116, 84] ∧
    Message.tryFrom 33 = .error (.protocol ("unknown message: " ++ toString 33)) :=
  ⟨by decide, by decide, c7_message_tag_total.2 33 (by decide) (by decide)⟩

/-- Claim C9: encoding an SSLRequest produces exactly the 8 bytes
`00 00 00 08 04 D2 16 2F` — the 4-byte big-endian self-including length 8
followed by the magic code `(1234 << 16) | 5679 = 80877103` — and decoding
that frame back as two big-endian 4-byte integers and re-encoding them
reproduces the Postgres-specified magic frame byte-identically. -/
theorem c9_ssl_request_magic_frame :
    sslRequestEncode [] = [0x00, 0x00, 0x00, 0x08, 0x04, 0xD2, 0x16, 0x2F] ∧
    ((1234 <<< 16) ||| 5679) = 80877103 ∧
    getU32 (sslRequestEncode []) = some (8, [0x04, 0xD2, 0x16, 0x2F]) ∧
    (getU32 (sslRequestEncode [])).bind (fun p => getU32 p.2) = some (80877103, []) ∧
    putU32 (putU32 [] 8) 80877103 = sslRequestEncode [] := by
  refine ⟨by decide, by decide, by decide, by decide, by decide⟩

/-- Claim C10: `PgRow::len` returns 0 (and hence `Row::is_empty` returns
true) for every row, regardless of how many columns the underlying
`DataRow` holds — for the worked three-column payload the decoded
`DataRow` still records column count 3. -/
theorem c10_pgrow_len_always_zero :
    (∀ row : PgRow, row.len = 0 ∧ row.isEmpty = true) ∧
    (dataRowRead examplePayload).map (fun r => r.1.length) = some 3 :=
  ⟨fun row => ⟨rfl, rfl⟩, by decide⟩

/-- Frames that the startup loop accepts and discards without leaving the
loop: a successful authentication, backend key data, parameter status. -/
lemma startupDrain_skip (pre l : List Frame)
    (h : ∀ f ∈ pre, f = Frame.authentication Authentication.ok ∨
      f = Frame.backendKeyData ∨ f = Frame.parameterStatus) :
    startupDrain (pre ++ l) = startupDrain l := by
  induction pre with
  | nil => rfl
  | cons f fs ih =>
      have hf := h f (by simp)
      have ht : ∀ g ∈ fs, g = Frame.authentication Authentication.ok ∨
          g = Frame.backendKeyData ∨ g = Frame.parameterStatus :=
        fun g hg => h g (by simp [hg])
      rcases hf with hf | hf | hf <;> subst hf <;>
        simpa [startupDrain] using ih ht

/-- Any frame whose kind is outside the startup loop's accepted set makes
the loop fail with a protocol error at once. -/
lemma startupDrain_bad (bad : Frame) (rest : List Frame)
    (h1 : bad.kind ≠ Message.Authentication)
    (h2 : bad.kind ≠ Message.BackendKeyData)
    (h3 : bad.kind ≠ Message.ParameterStatus)
    (h4 : bad.kind ≠ Message.ReadyForQuery) :
    ∃ msg, startupDrain (bad :: rest) = .error (.protocol msg) := by
  cases bad <;>
    first
      | exact ⟨_, rfl⟩
      | (exfalso; simp [Frame.kind] at h1 h2 h3 h4)

/-- Claim C2: for every scripted response stream consisting of
`Authentication(Ok)`, then zero or more `BackendKeyData` / `ParameterStatus`
frames in any order, then `ReadyForQuery`, the startup handshake completes
successfully in the Ready state; a stream that instead yields a frame of
any other message kind before `ReadyForQuery` during this phase makes the
handshake fail with a protocol error before reaching Ready. -/
theorem c2_startup_handshake :
    (∀ (mid rest : List Frame) (u d : String),
      (∀ f ∈ mid, f = Frame.backendKeyData ∨ f = Frame.parameterStatus) →
      ∃ conn, PgConnection.new
          (Frame.authentication Authentication.ok :: (mid ++ Frame.readyForQuery :: rest))
          u d = .ok conn ∧
        conn.is_ready = true) ∧
    (∀ (pre rest : List Frame) (bad : Frame) (u d : String),
      (∀ f ∈ pre, f = Frame.authentication Authentication.ok ∨
        f = Frame.backendKeyData ∨ f = Frame.parameterStatus) →
      bad.kind ≠ Message.Authentication →
      bad.kind ≠ Message.BackendKeyData →
      bad.kind ≠ Message.ParameterStatus →
      bad.kind ≠ Message.ReadyForQuery →
      ∃ msg, PgConnection.new (pre ++ bad :: rest) u d =
        .error (Error.protocol msg)) := by
  constructor
  · intro mid rest u d h
    have hd : startupDrain
        (Frame.authentication Authentication.ok :: (mid ++ Frame.readyForQuery :: rest)) =
        .ok rest := by
      have hs := startupDrain_skip (Frame.authentication Authentication.ok :: mid)
        (Frame.readyForQuery :: rest)
        (by
          intro f hf
          rcases List.mem_cons.mp hf with hf | hf
          · exact Or.inl hf
          · rcases h f hf with hf | hf
            · exact Or.inr (Or.inl hf)
            · exact Or.inr (Or.inr hf))
      simpa [startupDrain] using hs
    refine ⟨{ stream := { wbuf := []
                          sent := [.startupMessage (startupParams u d)]
                          flushes := 1
                          rstream := rest }
              data_row_values_buf := []
              next_statement_id := 1
              is_ready := true }, ?_, rfl⟩
    simp [PgConnection.new, startup, PgStream.write, PgStream.flush, hd]
  · intro pre rest bad u d h h1 h2 h3 h4
    obtain ⟨msg, hmsg⟩ := startupDrain_bad bad rest h1 h2 h3 h4
    have hd : startupDrain (pre ++ bad :: rest) = .error (.protocol msg) := by
      rw [startupDrain_skip pre (bad :: rest) h, hmsg]
    exact ⟨msg, by simp [PgConnection.new, startup, PgStream.write, PgStream.flush, hd]⟩

/-- Witness for C2: the concrete well-formed stream
`[Authentication Ok, BackendKeyData, ParameterStatus, ReadyForQuery]`
succeeds, and the stream with a `DataRow` in place of `ReadyForQuery`
fails with a protocol error. -/
theorem c2_startup_handshake_witness :
    (∀ f ∈ [Frame.backendKeyData, Frame.parameterStatus],
      f = Frame.backendKeyData ∨ f = Frame.parameterStatus) ∧
    (∃ conn, PgConnection.new
        (Frame.authentication Authentication.ok ::
          ([Frame.backendKeyData, Frame.parameterStatus] ++ Frame.readyForQuery :: []))
        "postgres" "postgres" = .ok conn ∧
      conn.is_ready = true) ∧
    (∃ msg, PgConnection.new
        ([Frame.backendKeyData] ++ Frame.dataRow [] :: []) "postgres" "postgres" =
      .error (Error.protocol msg)) :=
  ⟨by decide,
   c2_startup_handshake.1 [Frame.backendKeyData, Frame.parameterStatus] [] "postgres"
     "postgres" (by decide),
   c2_startup_handshake.2 [Frame.backendKeyData] [] (Frame.dataRow []) "postgres"
     "postgres" (by decide) (by decide) (by decide) (by decide) (by decide)⟩

/-- Counterexample for C6: a non-Ok `Authentication` during the handshake
produces an error of the very same taxonomy kind (`protocol`) as a generic
unexpected-message protocol violation — there is no distinct
unsupported-feature error kind, so a caller matching on the error kind
cannot tell "not yet implemented" from "corrupt stream". -/
theorem c6_counterexample :
    PgConnection.new [Frame.authentication Authentication.cleartextPassword] "u" "d" =
      .error (.protocol "requested unsupported authentication: CleartextPassword") ∧
    PgConnection.new [Frame.dataRow []] "u" "d" =
      .error (.protocol "unexpected message: DataRow") ∧
    (Error.protocol "requested unsupported authentication: CleartextPassword").kind =
      (Error.protocol "unexpected message: DataRow").kind := by
  exact ⟨rfl, rfl, rfl⟩

/-- Claim C6 as amended: every non-Ok `Authentication` frame during the
handshake fails fatally with a protocol-kind error whose message names the
requested authentication ("requested unsupported authentication: …"); the
error has the same kind as a generic protocol violation and is
distinguishable from one only by its message text. -/
theorem c6_unsupported_auth (a : Authentication) (h : a ≠ Authentication.ok)
    (rest : List Frame) (u d : String) :
    PgConnection.new (Frame.authentication a :: rest) u d =
      .error (.protocol ("requested unsupported authentication: " ++ a.debugName)) ∧
    (Error.protocol ("requested unsupported authentication: " ++ a.debugName)).kind =
      ErrorKind.protocol := by
  refine ⟨?_, rfl⟩
  simp [PgConnection.new, startup, PgStream.write, PgStream.flush, startupDrain, h]

/-- Witness for C6 (amended) at the concrete variant `CleartextPassword`. -/
theorem c6_unsupported_auth_witness :
    Authentication.cleartextPassword ≠ Authentication.ok ∧
    (PgConnection.new [Frame.authentication Authentication.cleartextPassword] "u" "d" =
      .error (.protocol ("requested unsupported authentication: " ++
        Authentication.cleartextPassword.debugName)) ∧
    (Error.protocol ("requested unsupported authentication: " ++
        Authentication.cleartextPassword.debugName)).kind = ErrorKind.protocol) :=
  ⟨by decide, c6_unsupported_auth Authentication.cleartextPassword (by decide) [] "u" "d"⟩

/-- Counterexample for C3: on a fresh connection (whose result-column
metadata the connection cannot already know — it has no statement cache),
`execute` buffers exactly `Parse`, `Bind`, `Execute`, `Sync`; no `Describe`
message is ever written (the call is commented out in the source). -/
theorem c3_counterexample :
    ((freshConnection []).execute "SELECT 1" (some emptyArgs)).map
        (fun r => (r.1.stream.wbuf, r.2)) =
      some ([FrontendMessage.parse 1 "SELECT 1" [],
             FrontendMessage.bind "" 1 [TypeFormat.binary] 0 [] [TypeFormat.binary],
             FrontendMessage.execute "" 0,
             FrontendMessage.sync], ⟨1⟩) ∧
    ((freshConnection []).execute "SELECT 1" (some emptyArgs)).map
        (fun r => r.1.stream.wbuf.any FrontendMessage.isDescribe) = some false := by
  exact ⟨rfl, rfl⟩

/-- Claim C3 as amended: for every query string and non-`None` argument
set, `execute` buffers, in strict order, `Parse` (fresh statement id,
query text, declared argument type OIDs), `Bind` (binary-format values on
the unnamed portal, binary-format results), `Execute` on the unnamed
portal with no row limit, and `Sync` — `Describe` is never written, its
step being commented out.  All four are buffered via `write()` with no
I/O: `execute` performs no flush and consumes nothing from the response
stream, returning the cursor at once; the single `flush()` that sends
them happens when the cursor is first consumed. -/
theorem c3_execute_message_sequence (conn : PgConnection) (query : String)
    (args : PgArguments) (h : conn.is_ready = true) :
    ∃ conn2 cur,
      conn.execute query (some args) = some (conn2, cur) ∧
      cur.statement = conn.next_statement_id ∧
      conn2.stream.wbuf =
        conn.stream.wbuf ++ queryBlock conn.next_statement_id query args ∧
      conn2.stream.sent = conn.stream.sent ∧
      conn2.stream.flushes = conn.stream.flushes ∧
      conn2.stream.rstream = conn.stream.rstream ∧
      (first conn2).2.stream.flushes = conn.stream.flushes + 1 ∧
      (first conn2).2.stream.sent =
        (conn.stream.sent ++ conn.stream.wbuf) ++
          queryBlock conn.next_statement_id query args ∧
      (first conn2).2.stream.wbuf = [] := by
  refine ⟨_, _, rfl, rfl, ?_, rfl, rfl, rfl, ?_, ?_, ?_⟩
  · simp [PgConnection.execute, PgConnection.write_prepare, PgConnection.write_bind,
      PgConnection.write_execute, PgConnection.write_sync, PgStream.write, queryBlock]
  all_goals
    rcases hfl : firstLoop conn.stream.rstream conn.data_row_values_buf with
      ⟨res, rest, values⟩
    simp [first, wait_for_ready, h, PgStream.flush, PgConnection.execute,
      PgConnection.write_prepare, PgConnection.write_bind, PgConnection.write_execute,
      PgConnection.write_sync, PgStream.write, queryBlock, hfl]

/-- Witness for C3 (amended) on a fresh ready connection with the query
"SELECT 1" and an empty argument set. -/
theorem c3_execute_message_sequence_witness :
    (freshConnection []).is_ready = true ∧
    (∃ conn2 cur,
      (freshConnection []).execute "SELECT 1" (some emptyArgs) = some (conn2, cur) ∧
      cur.statement = (freshConnection []).next_statement_id ∧
      conn2.stream.wbuf =
        (freshConnection []).stream.wbuf ++
          queryBlock (freshConnection []).next_statement_id "SELECT 1" emptyArgs ∧
      conn2.stream.sent = (freshConnection []).stream.sent ∧
      conn2.stream.flushes = (freshConnection []).stream.flushes ∧
      conn2.stream.rstream = (freshConnection []).stream.rstream ∧
      (first conn2).2.stream.flushes = (freshConnection []).stream.flushes + 1 ∧
      (first conn2).2.stream.sent =
        ((freshConnection []).stream.sent ++ (freshConnection []).stream.wbuf) ++
          queryBlock (freshConnection []).next_statement_id "SELECT 1" emptyArgs ∧
      (first conn2).2.stream.wbuf = []) :=
  ⟨rfl, c3_execute_message_sequence (freshConnection []) "SELECT 1" emptyArgs rfl⟩

/-- Counterexample for C4: on a ready connection whose server response is
an `ErrorResponse` frame, the cursor's `first` fails with the generic
unexpected-message protocol error — not a query-level (database-kind)
failure carrying the server's severity, code and message fields. -/
theorem c4_counterexample :
    (first (freshConnection
        [Frame.response "ERROR" "42601" "syntax error at end of input"])).1 =
      .error (.protocol "unexpected message: Response") ∧
    (Error.protocol "unexpected message: Response").kind ≠ ErrorKind.database :=
  ⟨rfl, by decide⟩

/-- Claim C4 as amended: when the server sends an `ErrorResponse` frame
while the cursor awaits the first row, the cursor fails with the generic
protocol-kind error "unexpected message: Response", discarding the
server's severity/code/message fields; the connection's ready flag is left
false, so the next cycle's `wait_for_ready` drains to the following
`ReadyForQuery` and succeeds, leaving the connection usable. -/
theorem c4_error_response (sev code msg : String) (rest : List Frame)
    (conn : PgConnection) (h1 : conn.is_ready = true)
    (h2 : conn.stream.rstream = Frame.response sev code msg :: rest) :
    (first conn).1 = .error (.protocol "unexpected message: Response") ∧
    (Error.protocol "unexpected message: Response").kind = ErrorKind.protocol ∧
    (first conn).2.is_ready = false ∧
    (first conn).2.stream.rstream = rest ∧
    (∀ (c2 : PgConnection) (rest2 : List Frame),
      c2.is_ready = false →
      c2.stream.rstream = Frame.readyForQuery :: rest2 →
      (wait_for_ready c2).1 = .ok () ∧
      (wait_for_ready c2).2.is_ready = true ∧
      (wait_for_ready c2).2.stream.rstream = rest2) := by
  refine ⟨?_, rfl, ?_, ?_, ?_⟩
  · simp [first, wait_for_ready, h1, PgStream.flush, h2, firstLoop, Frame.kind,
      Message.debugName]
  · simp [first, wait_for_ready, h1, PgStream.flush, h2, firstLoop]
  · simp [first, wait_for_ready, h1, PgStream.flush, h2, firstLoop]
  · intro c2 rest2 g1 g2
    refine ⟨?_, ?_, ?_⟩ <;> simp [wait_for_ready, g1, g2, drainToReady]

/-- Witness for C4 (amended) on a fresh ready connection scripted with one
`ErrorResponse` frame followed by `ReadyForQuery`. -/
theorem c4_error_response_witness :
    (freshConnection [Frame.response "ERROR" "42601" "syntax error",
        Frame.readyForQuery]).is_ready = true ∧
    (freshConnection [Frame.response "ERROR" "42601" "syntax error",
        Frame.readyForQuery]).stream.rstream =
      Frame.response "ERROR" "42601" "syntax error" :: [Frame.readyForQuery] ∧
    (first (freshConnection [Frame.response "ERROR" "42601" "syntax error",
        Frame.readyForQuery])).1 = .error (.protocol "unexpected message: Response") :=
  ⟨rfl, rfl,
   (c4_error_response "ERROR" "42601" "syntax error" [Frame.readyForQuery]
     (freshConnection [Frame.response "ERROR" "42601" "syntax error",
        Frame.readyForQuery]) rfl rfl).1⟩

/-- The `wait_for_ready` read loop discards every frame up to the first
`ReadyForQuery` and stops right after it. -/
lemma drainToReady_skip (junk rest : List Frame)
    (h : Frame.readyForQuery ∉ junk) :
    drainToReady (junk ++ Frame.readyForQuery :: rest) = .ok rest := by
  induction junk with
  | nil => rfl
  | cons f fs ih =>
      have hf : f ≠ Frame.readyForQuery := fun hc => h (by simp [hc])
      have ht : Frame.readyForQuery ∉ fs := fun hc => h (by simp [hc])
      cases f <;> simp_all [drainToReady]

/-- Claim C5: issuing a new query cycle before the previous cycle's
`ReadyForQuery` was observed blocks by draining frames until readiness
rather than interleaving: (1) `execute` itself consumes nothing from the
response stream and sends nothing; (2) consuming the cursor of a
connection that is mid-cycle first drains every frame up to the pending
`ReadyForQuery` — observing the ready flag true and then clearing it —
and only then consumes the new cycle's response frames, behaving exactly
as on an already-ready connection; (3) the wire bytes of two cycles are
never interleaved: two `execute` calls buffer two contiguous message
blocks in call order. -/
theorem c5_ready_gate :
    (∀ (conn : PgConnection) (q : String) (a : PgArguments),
      ∃ c2 cur, conn.execute q (some a) = some (c2, cur) ∧
        c2.stream.rstream = conn.stream.rstream ∧
        c2.stream.sent = conn.stream.sent) ∧
    (∀ (conn : PgConnection) (junk rest : List Frame),
      conn.is_ready = false →
      Frame.readyForQuery ∉ junk →
      conn.stream.rstream = junk ++ Frame.readyForQuery :: rest →
      first conn =
        first { conn with
                  is_ready := true
                  stream := { conn.stream with rstream := rest } }) ∧
    (∀ (conn : PgConnection) (q1 q2 : String) (a1 a2 : PgArguments),
      ∃ c1 cur1 c2 cur2,
        conn.execute q1 (some a1) = some (c1, cur1) ∧
        c1.execute q2 (some a2) = some (c2, cur2) ∧
        c2.stream.wbuf = conn.stream.wbuf ++ queryBlock cur1.statement q1 a1 ++
          queryBlock cur2.statement q2 a2) := by
  refine ⟨?_, ?_, ?_⟩
  · intro conn q a
    exact ⟨_, _, rfl, rfl, rfl⟩
  · intro conn junk rest h1 h2 h3
    have hd := drainToReady_skip junk rest h2
    simp [first, wait_for_ready, h1, h3, hd]
  · intro conn q1 q2 a1 a2
    refine ⟨_, _, _, _, rfl, rfl, ?_⟩
    simp [PgConnection.execute, PgConnection.write_prepare, PgConnection.write_bind,
      PgConnection.write_execute, PgConnection.write_sync, PgStream.write, queryBlock]

/-- Witness for C5: a mid-cycle connection whose stream still holds a
stale `BindComplete` before the pending `ReadyForQuery` behaves exactly
like the corresponding ready connection, and two concrete `execute` calls
buffer two contiguous blocks. -/
theorem c5_ready_gate_witness :
    ({ freshConnection [Frame.bindComplete, Frame.readyForQuery] with
        is_ready := false } : PgConnection).is_ready = false ∧
    Frame.readyForQuery ∉ [Frame.bindComplete] ∧
    first { freshConnection [Frame.bindComplete, Frame.readyForQuery] with
              is_ready := false } =
      first { ({ freshConnection [Frame.bindComplete, Frame.readyForQuery] with
                   is_ready := false } : PgConnection) with
                is_ready := true
                stream := { ({ freshConnection
                    [Frame.bindComplete, Frame.readyForQuery] with
                    is_ready := false } : PgConnection).stream with rstream := [] } } ∧
    (∃ c1 cur1 c2 cur2,
      (freshConnection []).execute "SELECT 1" (some emptyArgs) = some (c1, cur1) ∧
      c1.execute "SELECT 2" (some emptyArgs) = some (c2, cur2) ∧
      c2.stream.wbuf = (freshConnection []).stream.wbuf ++
        queryBlock cur1.statement "SELECT 1" emptyArgs ++
        queryBlock cur2.statement "SELECT 2" emptyArgs) :=
  ⟨rfl, by decide,
   c5_ready_gate.2.1 _ [Frame.bindComplete] [] rfl (by decide) rfl,
   c5_ready_gate.2.2 (freshConnection []) "SELECT 1" "SELECT 2" emptyArgs emptyArgs⟩

/-- Each `execute` call increments the connection's `u32` statement-id
counter, modulo 2^32. -/
lemma connAfter_counter (n : Nat) :
    (connAfter n).next_statement_id = (1 + n) % 2 ^ 32 := by
  induction n with
  | zero => decide
  | succ n ih =>
      have h : (2 : Nat) ^ 32 = 4294967296 := by norm_num
      simp only [connAfter, PgConnection.execute, PgConnection.write_prepare,
        PgConnection.write_bind, PgConnection.write_execute, PgConnection.write_sync,
        PgStream.write, ih]
      rw [h] at ih ⊢
      omega

/-- Counterexample for C8: the statement-id counter is a `u32`; the id
allocated by the 2^32-th `execute` call is 0, which is smaller than the id
1 of the first call (refuting "strictly greater than all previously
allocated"), and the call after that reuses id 1 (refuting "never
reused"). -/
theorem c8_counterexample :
    allocatedId 0 = 1 ∧
    allocatedId (2 ^ 32 - 1) = 0 ∧
    allocatedId (2 ^ 32) = allocatedId 0 := by
  refine ⟨?_, ?_, ?_⟩
  · rw [allocatedId, connAfter_counter]
    norm_num
  · rw [allocatedId, connAfter_counter]
    norm_num
  · rw [allocatedId, connAfter_counter, allocatedId, connAfter_counter]
    norm_num

/-- Claim C8 as amended: the statement id allocated by the k-th `execute`
call on a connection is `(1 + k) mod 2^32` — the counter starts at 1 and,
because it is a `u32`, ids are strictly increasing (hence never reused)
only for the first 2^32 − 1 allocations; the counter then wraps to 0 and
later repeats. -/
theorem c8_statement_id_monotone :
    (∀ n, allocatedId n = (1 + n) % 2 ^ 32) ∧
    (∀ m n, m < n → n < 2 ^ 32 - 1 → allocatedId m < allocatedId n) := by
  have h : (2 : Nat) ^ 32 = 4294967296 := by norm_num
  refine ⟨connAfter_counter, ?_⟩
  intro m n h1 h2
  rw [allocatedId, allocatedId, connAfter_counter, connAfter_counter, h]
  rw [h] at h2
  omega

/-- Witness for C8 (amended): the first call allocates id 1, the second
id 2, strictly larger. -/
theorem c8_statement_id_monotone_witness :
    (0 : Nat) < 1 ∧ (1 : Nat) < 2 ^ 32 - 1 ∧ allocatedId 0 < allocatedId 1 :=
  ⟨by decide, by norm_num, c8_statement_id_monotone.2 0 1 (by decide) (by norm_num)⟩

/-- Reading back a 2-byte big-endian encoding yields the encoded value. -/
lemma getU16_encode (n : Nat) (rest : List Nat) (h : n < 2 ^ 16) :
    getU16 (u16be n ++ rest) = some (n, rest) := by
  simp [getU16, u16be]
  omega

/-- Reading back a 4-byte big-endian two's-complement encoding yields the
encoded value, for any value representable in 32 signed bits. -/
lemma getI32_encode (i : Int) (rest : List Nat) (h1 : -(2 ^ 31) ≤ i)
    (h2 : i < 2 ^ 31) :
    getI32 (i32be i ++ rest) = some (i, rest) := by
  simp [getI32, i32be]
  split_ifs <;> omega

/-- Advancing over a leading block leaves exactly the remainder. -/
lemma advanceBuf_append (bs rest : List Nat) :
    advanceBuf (bs ++ rest) bs.length = some rest := by
  simp [advanceBuf, List.drop_left]

/-- A 4-byte encoding has length 4. -/
lemma i32be_length (i : Int) : (i32be i).length = 4 := by
  simp [i32be]

/-- A 2-byte encoding has length 2. -/
lemma u16be_length (n : Nat) : (u16be n).length = 2 := by
  simp [u16be]

/-- The cast chain `i32 → usize` is the identity on small naturals. -/
lemma i32AsUsize_natCast (n : Nat) (h : n < 2 ^ 64) : i32AsUsize (n : Int) = n := by
  simp [i32AsUsize]
  omega

/-- The cast chain `i32 → u32` is the identity on small naturals. -/
lemma i32AsU32_natCast (n : Nat) (h : n < 2 ^ 32) : i32AsU32 (n : Int) = n := by
  simp [i32AsU32]
  omega

/-- The expected range index has one entry per column. -/
lemma expectedValues_length (index : Nat) (cols : ColumnData) :
    (expectedValues index cols).length = cols.length := by
  induction cols generalizing index with
  | nil => rfl
  | cons c cs ih => cases c <;> simp [expectedValues, ih]

/-- The column loop of `DataRow::read`, run on the encoding of `cols`
followed by any remainder, consumes exactly the encoding and records
exactly the expected ranges (appended to its accumulator). -/
lemma dataRowLoop_spec :
    ∀ (cols : ColumnData) (index : Nat) (acc : RowValues) (rest : List Nat),
    (∀ bs : List Nat, some bs ∈ cols → bs.length < 2 ^ 31) →
    dataRowLoop cols.length (encodeColumns cols ++ rest) index acc =
      some (acc ++ expectedValues index cols, rest) := by
  intro cols
  induction cols with
  | nil =>
      intro index acc rest h
      simp [dataRowLoop, encodeColumns, expectedValues]
  | cons c cs ih =>
      intro index acc rest h
      have ht : ∀ bs : List Nat, some bs ∈ cs → bs.length < 2 ^ 31 :=
        fun bs hbs => h bs (by simp [hbs])
      cases c with
      | none =>
          have hg := getI32_encode (-1) (encodeColumns cs ++ rest) (by norm_num)
            (by norm_num)
          have hi := ih (index + 4) (acc ++ [none]) rest ht
          simp [dataRowLoop, encodeColumns, encodeColumn, List.append_assoc, hg, hi,
            expectedValues]
      | some bs =>
          have hlen : bs.length < 2 ^ 31 := h bs (by simp)
          have hg := getI32_encode (bs.length : Int) (bs ++ (encodeColumns cs ++ rest))
            (by omega) (by exact_mod_cast hlen)
          have hne : ((bs.length : Nat) : Int) ≠ -1 := by omega
          have hus : i32AsUsize ((bs.length : Nat) : Int) = bs.length :=
            i32AsUsize_natCast bs.length (by omega)
          have hu32 : i32AsU32 ((bs.length : Nat) : Int) = bs.length :=
            i32AsU32_natCast bs.length (by omega)
          have hadv := advanceBuf_append bs (encodeColumns cs ++ rest)
          have hi := ih (index + bs.length + 4)
            (acc ++ [some (index, index + bs.length)]) rest ht
          simp [dataRowLoop, encodeColumns, encodeColumn, List.append_assoc, hg, hne,
            hus, hu32, hadv, hi, expectedValues]

/-- `DataRow::read` on the payload encoding of `cols` succeeds, records the
declared column count and the expected ranges, and consumes the entire
payload with nothing left over. -/
lemma dataRowRead_spec (cols : ColumnData) (h1 : cols.length < 2 ^ 16)
    (h2 : ∀ bs : List Nat, some bs ∈ cols → bs.length < 2 ^ 31) :
    dataRowRead (encodePayload cols) =
      some (⟨cols.length⟩, expectedValues 6 cols, []) := by
  have hu := getU16_encode cols.length (encodeColumns cols) h1
  have hl := dataRowLoop_spec cols 6 [] [] h2
  simp only [List.append_nil, List.nil_append] at hl
  simp [dataRowRead, encodePayload, hu, hl]

/-- `DataRow::get` with the expected ranges returns exactly the encoded
column: the NULL marker for NULL columns and the original value bytes for
the rest, sliced out of the payload at its declared position. -/
lemma dataRowGet_spec :
    ∀ (cols : ColumnData) (P rest : List Nat) (i : Nat) (hi : i < cols.length),
    dataRowGet (P ++ (encodeColumns cols ++ rest))
        (expectedValues (P.length + 4) cols) i =
      some (cols.get ⟨i, hi⟩) := by
  intro cols
  induction cols with
  | nil =>
      intro P rest i hi
      exact absurd hi (by simp)
  | cons c cs ih =>
      intro P rest i hi
      cases i with
      | zero =>
          cases c with
          | none => simp [dataRowGet, expectedValues]
          | some bs =>
              have hB : P ++ (encodeColumns (some bs :: cs) ++ rest) =
                  (P ++ i32be (bs.length : Int)) ++ (bs ++ (encodeColumns cs ++ rest)) := by
                simp [encodeColumns, encodeColumn, List.append_assoc]
              have hPl : (P ++ i32be (bs.length : Int)).length = P.length + 4 := by
                simp [i32be_length]
              have hdrop : (P ++ (encodeColumns (some bs :: cs) ++ rest)).drop
                  (P.length + 4) = bs ++ (encodeColumns cs ++ rest) := by
                rw [hB, ← hPl, List.drop_left]
              have htake : (bs ++ (encodeColumns cs ++ rest)).take bs.length = bs :=
                List.take_left bs (encodeColumns cs ++ rest)
              have hlen : P.length + 4 + bs.length ≤
                  (P ++ (encodeColumns (some bs :: cs) ++ rest)).length := by
                simp [encodeColumns, encodeColumn, i32be_length]
                omega
              simp only [expectedValues, dataRowGet, List.get?]
              rw [if_pos ⟨by omega, hlen⟩]
              simp [hdrop, htake]
      | succ i =>
          have hi2 : i < cs.length := by simpa using hi
          cases c with
          | none =>
              have hstep : dataRowGet (P ++ (encodeColumns (none :: cs) ++ rest))
                  (expectedValues (P.length + 4) (none :: cs)) (i + 1) =
                  dataRowGet (P ++ (encodeColumns (none :: cs) ++ rest))
                  (expectedValues (P.length + 4 + 4) cs) i := rfl
              rw [hstep]
              have hre : P ++ (encodeColumns (none :: cs) ++ rest) =
                  (P ++ encodeColumn none) ++ (encodeColumns cs ++ rest) := by
                simp [encodeColumns, List.append_assoc]
              have hlen : (P ++ encodeColumn none).length + 4 = P.length + 4 + 4 := by
                simp [encodeColumn, i32be_length]
              rw [hre, ← hlen, ih (P ++ encodeColumn none) rest i hi2]
              rfl
          | some bs =>
              have hstep : dataRowGet (P ++ (encodeColumns (some bs :: cs) ++ rest))
                  (expectedValues (P.length + 4) (some bs :: cs)) (i + 1) =
                  dataRowGet (P ++ (encodeColumns (some bs :: cs) ++ rest))
                  (expectedValues (P.length + 4 + bs.length + 4) cs) i := rfl
              rw [hstep]
              have hre : P ++ (encodeColumns (some bs :: cs) ++ rest) =
                  (P ++ encodeColumn (some bs)) ++ (encodeColumns cs ++ rest) := by
                simp [encodeColumns, encodeColumn, List.append_assoc]
              have hlen : (P ++ encodeColumn (some bs)).length + 4 =
                  P.length + 4 + bs.length + 4 := by
                simp [encodeColumn, i32be_length]
                omega
              rw [hre, ← hlen, ih (P ++ encodeColumn (some bs)) rest i hi2]
              rfl

/-- Claim C1: for every valid DataRow frame payload — a 2-byte big-endian
column count, then per column a 4-byte big-endian signed length (`-1`
marking NULL) and that many value bytes — `DataRow::read` succeeds
consuming precisely the declared bytes with no overrun or underrun, and
`DataRow::get(i)` then returns exactly the byte slice delimited by the
declared per-column lengths at its declared position in the payload,
with `none` exactly for the columns whose length field was `-1`. -/
theorem c1_datarow_decode_get (cols : ColumnData) (h1 : cols.length < 2 ^ 16)
    (h2 : ∀ bs : List Nat, some bs ∈ cols → bs.length < 2 ^ 31) :
    ∃ values,
      dataRowRead (encodePayload cols) = some (⟨cols.length⟩, values, []) ∧
      values.length = cols.length ∧
      ∀ i (hi : i < cols.length),
        dataRowGet (encodePayload cols) values i = some (cols.get ⟨i, hi⟩) := by
  refine ⟨expectedValues 6 cols, dataRowRead_spec cols h1 h2,
    expectedValues_length 6 cols, ?_⟩
  intro i hi
  have h := dataRowGet_spec cols (u16be cols.length) [] i hi
  simpa [encodePayload, u16be] using h

/-- Witness for C1 at the spec's worked example: the payload
`00 03 00 00 00 01 31 00 00 00 01 32 00 00 00 01 33` decodes to three
non-null columns with values "1", "2", "3". -/
theorem c1_datarow_decode_get_witness :
    exampleCols.length < 2 ^ 16 ∧
    (∀ bs : List Nat, some bs ∈ exampleCols → bs.length < 2 ^ 31) ∧
    encodePayload exampleCols = examplePayload ∧
    dataRowGet examplePayload (expectedValues 6 exampleCols) 0 = some (some [0x31]) ∧
    dataRowGet examplePayload (expectedValues 6 exampleCols) 1 = some (some [0x32]) ∧
    dataRowGet examplePayload (expectedValues 6 exampleCols) 2 = some (some [0x33]) ∧
    (∃ values,
      dataRowRead (encodePayload exampleCols) =
        some (⟨exampleCols.length⟩, values, []) ∧
      values.length = exampleCols.length ∧
      ∀ i (hi : i < exampleCols.length),
        dataRowGet (encodePayload exampleCols) values i =
          some (exampleCols.get ⟨i, hi⟩)) :=
  ⟨by decide,
   by
     intro bs hbs
     simp [exampleCols] at hbs
     rcases hbs with h | h | h <;> subst h <;> decide,
   by decide, by decide, by decide, by decide,
   c1_datarow_decode_get exampleCols (by decide)
     (by
       intro bs hbs
       simp [exampleCols] at hbs
       rcases hbs with h | h | h <;> subst h <;> decide)⟩

end Sqlx
